import Mathlib

/-!
# Verification of the bear_hug event / ECS / compositing core

A shallow embedding of the event dispatcher (`bear_hug/event.py`), the
widget and layout compositing model (`bear_hug/widgets.py`), the ECS
components (`bear_hug/ecs.py`) and the ECS-aware layout
(`bear_hug/ecs_widgets.py`), together with theorems settling the spec
claims about queue ordering, callback return handling, event-type
re-registration, widget shape invariants, velocity integration, collision
detection, border collisions, recompositing and serialization.

Python dicts are embedded as association lists, Python lists as Lean
lists, Python exceptions as `Except String`, and Python `float` tick
times as exact rationals (`ℚ`); possibly diverging drain loops take an
explicit fuel argument.
-/

namespace BearHug

/-- `BearEvent` from `bear_hug/event.py`: an `event_type` tag plus a value.
For the dispatcher model the value is left abstract as an integer tag. -/
structure BearEvent where
  event_type : String
  event_value : Int
  deriving DecidableEq

/-- The possible results of a Python `on_event` callback, as seen by
`dispatch_events`.  `other` covers every Python object that is neither
`None`, a `BearEvent`, nor a list of `BearEvent`s; its field records the
Python truthiness of that object (e.g. `0`, `False` and `""` are falsy). -/
inductive PyRet where
  | pyNone
  | ev (e : BearEvent)
  | evList (es : List BearEvent)
  | other (truthy : Bool)
  deriving DecidableEq

/-- Python truthiness of a callback result: `None` is falsy, a `BearEvent`
instance is always truthy, a list is truthy iff nonempty. -/
def PyRet.truthy : PyRet → Bool
  | .pyNone => false
  | .ev _ => true
  | .evList es => !es.isEmpty
  | .other t => t

/-- Replace the binding of `k` in an association list, or append it;
embeds the Python dict assignment `d[k] = v`. -/
def assocSet [DecidableEq κ] (l : List (κ × α)) (k : κ) (v : α) : List (κ × α) :=
  match l with
  | [] => [(k, v)]
  | (k₀, v₀) :: rest =>
      if k₀ = k then (k, v) :: rest else (k₀, v₀) :: assocSet rest k v

/-- The mutable state of `BearEventDispatcher`: the set of registered event
types, the per-type listener lists (listeners named by `Nat` identifiers)
and the FIFO pending queue (`self.deque`). -/
structure DispatcherState where
  event_types : List String
  listeners : List (String × List Nat)
  queue : List BearEvent
  deriving DecidableEq

/-- `BearEventDispatcher.register_event_type`: adds the type to the set and
unconditionally resets its listener list to `[]`. -/
def register_event_type (st : DispatcherState) (t : String) : DispatcherState :=
  { st with
    event_types := if t ∈ st.event_types then st.event_types else st.event_types ++ [t]
    listeners := assocSet st.listeners t [] }

/-- `BearEventDispatcher.add_event`: type-check then append to the FIFO.
The `isinstance(event, BearEvent)` check is vacuous in the typed model. -/
def add_event (st : DispatcherState) (e : BearEvent) : Except String DispatcherState :=
  if e.event_type ∈ st.event_types then
    .ok { st with queue := st.queue ++ [e] }
  else
    .error "BearLoopException: Incorrect event type"

/-- The error message raised by `dispatch_events` on a bad callback return. -/
def badReturnMsg : String :=
  "BearLoopException: on_event returns something other than BearEvent"

/-- The `if r: ...` block of `BearEventDispatcher.dispatch_events`: a falsy
return is skipped, a `BearEvent` or a list of them is enqueued via
`add_event`, anything else truthy raises `BearLoopException`. -/
def processRet (st : DispatcherState) (r : PyRet) : Except String DispatcherState :=
  if r.truthy then
    match r with
    | .ev e => add_event st e
    | .evList es => es.foldlM add_event st
    | _ => .error badReturnMsg
  else
    .ok st

/-- The inner loop of `dispatch_events`: deliver event `e` to the listeners
`ls` in order, handling each return value, recording deliveries in `log`.
Callbacks are pure (`beh`), so the listener list cannot mutate mid-loop,
matching the source whenever no callback touches the subscriptions. -/
def runListeners (beh : Nat → BearEvent → PyRet) (e : BearEvent) :
    List Nat → DispatcherState → List (Nat × BearEvent) →
    Except String (DispatcherState × List (Nat × BearEvent))
  | [], st, log => .ok (st, log)
  | l :: ls, st, log =>
      match processRet st (beh l e) with
      | .error m => .error m
      | .ok st₂ => runListeners beh e ls st₂ (log ++ [(l, e)])

/-- `BearEventDispatcher.dispatch_events`: drain the FIFO to exhaustion,
delivering each popped event to the listeners subscribed to its type and
appending whatever they return.  `fuel` bounds the number of processed
events; the returned log lists every delivery in order. -/
def dispatch_events (beh : Nat → BearEvent → PyRet) :
    Nat → DispatcherState → List (Nat × BearEvent) →
    Except String (DispatcherState × List (Nat × BearEvent))
  | 0, st, log => if st.queue.isEmpty then .ok (st, log) else .error "out of fuel"
  | fuel + 1, st, log =>
      match st.queue with
      | [] => .ok (st, log)
      | e :: rest =>
          match st.listeners.lookup e.event_type with
          | none => .error "KeyError"
          | some ls =>
              match runListeners beh e ls { st with queue := rest } log with
              | .error m => .error m
              | .ok (st₂, log₂) => dispatch_events beh fuel st₂ log₂

/-- A callback return value that `dispatch_events` accepts without raising:
falsy, or a correctly-typed event, or a list of correctly-typed events. -/
def retSafe (types : List String) (r : PyRet) : Prop :=
  r.truthy = false
  ∨ (∃ e, r = .ev e ∧ e.event_type ∈ types)
  ∨ (∃ es, r = .evList es ∧ ∀ x ∈ es, x.event_type ∈ types)

/-- Event generator used by the concrete dispatcher witnesses. -/
def genW (e : BearEvent) : List BearEvent :=
  if e.event_value = 1 then [⟨"custom", 9⟩] else []

/-- Listener behaviour used by the concrete dispatcher witnesses: every
listener returns the list `genW e`. -/
def behW (_ : Nat) (e : BearEvent) : PyRet := .evList (genW e)

/-- Registered event types of the concrete witness dispatcher. -/
def typesW : List String := ["tick", "custom"]

/-- Listener table of the concrete witness dispatcher: listener `7` is
subscribed to every registered type. -/
def lstW : List (String × List Nat) := [("tick", [7]), ("custom", [7])]

/-- Events enqueued first in the concrete dispatcher witness. -/
def esW : List BearEvent := [⟨"tick", 1⟩, ⟨"tick", 2⟩]

/-- Events already pending behind `esW` in the concrete dispatcher witness. -/
def restW : List BearEvent := [⟨"tick", 3⟩]

/-! ## Widgets and shapes (`bear_hug/widgets.py`, `bear_hug/bear_utilities.py`) -/

/-- `shapes_equal` from `bear_hug/bear_utilities.py` on two 2-nested lists:
false when the outer lengths differ or some pair of rows differs in length
(every row of a chars/colors grid is a Python list, so the `isinstance`
guards in the source always hold here). -/
def shapes_equal (a : List (List χ)) (b : List (List κ)) : Bool :=
  (a.length == b.length) && !((a.zip b).any fun p => p.1.length != p.2.length)

/-- The data of a `Widget` from `bear_hug/widgets.py`: a z-level plus the
`chars` and `colors` grids.  The cell types are parameters so the same
embedding serves the compositing model (`Char`/`String` cells) and the
serialization model (cells as Python strings). -/
structure PyWidget (χ κ : Type) where
  z_level : Int
  chars : List (List χ)
  colors : List (List κ)
  deriving DecidableEq

/-- `Widget.__init__`: raises `BearException` when `shapes_equal` rejects the
pair, otherwise stores z-level, chars and colors. -/
def mkWidget (chars : List (List χ)) (colors : List (List κ)) (z_level : Int) :
    Except String (PyWidget χ κ) :=
  if shapes_equal chars colors then .ok ⟨z_level, chars, colors⟩
  else .error "BearException: Chars and colors should have the same shape"

/-- `Widget.flip`: reverse every row for axis x/horizontal, reverse the row
order for axis y/vertical; any other axis string is a no-op. -/
def widgetFlip (w : PyWidget χ κ) (axis : String) : PyWidget χ κ :=
  if axis = "x" ∨ axis = "horizontal" then
    { w with chars := w.chars.map List.reverse, colors := w.colors.map List.reverse }
  else if axis = "y" ∨ axis = "vertical" then
    { w with chars := w.chars.reverse, colors := w.colors.reverse }
  else w

/-- The spec's shape invariant: `chars` and `colors` have identical outer and
per-row lengths. -/
def WidgetShapeOk (w : PyWidget χ κ) : Prop :=
  w.chars.length = w.colors.length
  ∧ List.Forall₂ (fun (r : List χ) (s : List κ) => r.length = s.length)
      w.chars w.colors

/-! ## PositionComponent (`bear_hug/ecs.py`) -/

/-- Python 3 `round` (banker's rounding, half to even) on an exact rational. -/
def pyRound (q : ℚ) : ℤ :=
  if Int.fract q < 1 / 2 then ⌊q⌋
  else if 1 / 2 < Int.fract q then ⌊q⌋ + 1
  else if 2 ∣ ⌊q⌋ then ⌊q⌋ else ⌊q⌋ + 1

/-- The mutable state of a `PositionComponent`.  Tick times and velocities are
embedded as exact rationals; the source stores Python floats, which agree with
this model on the dyadic values exercised by the spec scenarios. -/
structure PositionState where
  owner_id : String
  x : ℤ
  y : ℤ
  vx : ℚ
  vy : ℚ
  x_delay : Option ℚ
  y_delay : Option ℚ
  x_waited : ℚ
  y_waited : ℚ
  last_move : ℤ × ℤ
  deriving DecidableEq

/-- `PositionComponent.__init__` plus the `vx`/`vy` setters: the per-axis delay
is `abs(1/v)` for a nonzero velocity component and `None` otherwise. -/
def mkPositionComponent (owner_id : String) (x y : ℤ) (vx vy : ℚ) :
    PositionState :=
  { owner_id := owner_id, x := x, y := y, vx := vx, vy := vy
    x_delay := if vx ≠ 0 then some |1 / vx| else none
    y_delay := if vy ≠ 0 then some |1 / vy| else none
    x_waited := 0, y_waited := 0, last_move := (1, 0) }

/-- `PositionComponent.move`: record `last_move`, update the coordinates and
(when `emit_event`) emit `ecs_move` with `(owner_id, new_x, new_y)`.  The
`affect_z` widget mutation is skipped: the modelled owner entity carries no
widget component, so `hasattr(self.owner, 'widget')` is false. -/
def posMove (s : PositionState) (x y : ℤ) (emit_event : Bool) :
    PositionState × List (String × ℤ × ℤ) :=
  ({ s with last_move := (x - s.x, y - s.y), x := x, y := y },
   if emit_event then [(s.owner_id, x, y)] else [])

/-- The `tick` branch of `PositionComponent.on_event`: accumulate the elapsed
time on both axis clocks, advance each axis whose accumulated time strictly
exceeds its delay by `round(waited/delay)` tiles in the direction of its
velocity (resetting that clock), and call `move` iff a coordinate changed.
Returns the new state plus the emitted `ecs_move` events. -/
def posOnEventTick (s : PositionState) (dt : ℚ) :
    PositionState × List (String × ℤ × ℤ) :=
  if s.vx ≠ 0 ∨ s.vy ≠ 0 then
    let xw := s.x_waited + dt
    let yw := s.y_waited + dt
    let xstep : ℤ × ℚ :=
      match s.x_delay with
      | some d =>
          if xw > d then
            (if s.vx > 0 then s.x + pyRound (xw / d) else s.x - pyRound (xw / d), 0)
          else (s.x, xw)
      | none => (s.x, xw)
    let ystep : ℤ × ℚ :=
      match s.y_delay with
      | some d =>
          if yw > d then
            (if s.vy > 0 then s.y + pyRound (yw / d) else s.y - pyRound (yw / d), 0)
          else (s.y, yw)
      | none => (s.y, yw)
    let s₁ := { s with x_waited := xstep.2, y_waited := ystep.2 }
    if xstep.1 ≠ s.x ∨ ystep.1 ≠ s.y then posMove s₁ xstep.1 ystep.1 true
    else (s₁, [])
  else (s, [])

/-- Scenario B initial state: an entity at the origin with velocity `(2, 0)`. -/
def posScenarioB : PositionState := mkPositionComponent "B" 0 0 2 0

/-! ## CollisionListener (`bear_hug/ecs.py`) -/

/-- `rectangles_collide` from `bear_hug/bear_utilities.py`: closed-interval
overlap test on both axes for two rectangles given by top-left corner and
size. -/
def rectangles_collide (pos1 size1 pos2 size2 : ℤ × ℤ) : Bool :=
  decide (pos1.1 ≤ pos2.1 + size2.1 - 1) && decide (pos2.1 ≤ pos1.1 + size1.1 - 1)
  && (decide (pos1.2 ≤ pos2.2 + size2.2 - 1) && decide (pos2.2 ≤ pos1.2 + size1.2 - 1))

/-- Python `range(a, b)` over integers. -/
def intRange (a b : ℤ) : List ℤ := (List.range (b - a).toNat).map fun i => a + i

/-- The per-entity data that `CollisionListener.on_event` reads: the widget's
z-level and size, the position, the collision parameters, and whether the
entity has position/collision components at all. -/
structure CLEntity where
  z_level : ℤ
  width : ℤ
  height : ℤ
  pos_x : ℤ
  pos_y : ℤ
  has_position : Bool
  has_collision : Bool
  depth : ℤ
  face_position : ℤ × ℤ
  face_size : ℤ × ℤ
  z_shift : ℤ × ℤ
  deriving DecidableEq

/-- The `ecs_move` branch of `CollisionListener.on_event` from
`bear_hug/ecs.py`: for a tracked mover, scan every other tracked entity; when
the depth ranges admit common z-levels, test the two face rectangles on every
common z-level (each shifted by `z_shift` per level of depth) and append one
`ecs_collision` event `(moved_id, other_id)` for **every** colliding z-level —
the loop body ends in `continue`, not `break`, so nothing stops after the
first hit.  `entities` is the `self.entities` dict (total here: every tracked
id is registered by construction in the source), `tracked` is the iteration
order of the Python set `self.currently_tracked`. -/
def collisionMoveEvents (entities : String → CLEntity) (tracked : List String)
    (moved_id : String) (x y : ℤ) : List (String × String) :=
  if moved_id ∈ tracked then
    let m := entities moved_id
    let moved_face_size := if m.face_size = (0, 0) then (m.width, m.height) else m.face_size
    tracked.flatMap fun other_id =>
      let o := entities other_id
      if other_id = moved_id ∨ ¬o.has_position ∨ ¬o.has_collision then []
      else if m.z_level - m.depth ≤ o.z_level ∧ o.z_level - o.depth ≤ m.z_level then
        let other_face_size := if o.face_size = (0, 0) then (o.width, o.height) else o.face_size
        let z₀ := max (m.z_level - m.depth) (o.z_level - o.depth)
        let z₁ := min m.z_level o.z_level
        (intRange z₀ (z₁ + 1)).filterMap fun z =>
          let moved_pos := (x + m.face_position.1 + m.z_shift.1 * (m.z_level - z),
                            y + m.face_position.2 + m.z_shift.2 * (m.z_level - z))
          let other_pos := (o.pos_x + o.face_position.1 + o.z_shift.1 * (o.z_level - z),
                            o.pos_y + o.face_position.2 + o.z_shift.2 * (o.z_level - z))
          if rectangles_collide moved_pos moved_face_size other_pos other_face_size
          then some (moved_id, other_id) else none
      else []
  else []

/-- Two tracked 2×2 entities for the collision-listener counterexample: both
fully collidable (default face), at overlapping positions, with depth `d` and
z-level 2. -/
def clPair (d : ℤ) : String → CLEntity :=
  fun id =>
    if id = "A" then ⟨2, 2, 2, 0, 0, true, true, d, (0, 0), (0, 0), (0, 0)⟩
    else ⟨2, 2, 2, 1, 1, true, true, d, (0, 0), (0, 0), (0, 0)⟩

/-! ## Layout (`bear_hug/widgets.py`) and ECSLayout (`bear_hug/ecs_widgets.py`) -/

/-- A 2-nested Python list. -/
abbrev Grid (α : Type) := List (List α)

/-- Total 2-D indexing with a default, for cells the source guarantees to be
in range. -/
def gridGet (g : Grid α) (row col : Nat) (d : α) : α := (g.getD row []).getD col d

/-- Remove the binding of `k`; embeds the Python statement `del d[k]`
(association lists built by `assocSet` hold each key at most once). -/
def assocDel [DecidableEq κ] (l : List (κ × α)) (k : κ) : List (κ × α) :=
  l.eraseP fun p => p.1 = k

/-- The mutable state of a `Layout`.  Child widgets live in `store` and are
referenced everywhere by their index, which stands in for Python object
identity (`child in self.children`, dict keys of `child_locations`, the
per-cell coverage stacks).  The Layout object itself is not in `store`, so the
`child is self` check of `add_child` can never fire in this model. -/
structure LayoutState where
  store : List (PyWidget Char String)
  children : List Nat
  child_locations : List (Nat × Nat × Nat)
  pointers : Grid (List Nat)
  chars : Grid Char
  colors : Grid String
  need_redraw : Bool
  deriving DecidableEq

/-- Dereference a widget id. -/
def widgetData (st : LayoutState) (wid : Nat) : PyWidget Char String :=
  st.store.getD wid ⟨0, [], []⟩

/-- Update one coverage cell of the pointer grid. -/
def cellModify (g : Grid (List Nat)) (r c : Nat) (f : List Nat → List Nat) :
    Grid (List Nat) :=
  g.set r ((g.getD r []).set c (f (gridGet g r c [])))

/-- The nested `for y ... for x ...` loops of `add_child`/`remove_child`:
apply `f` to every coverage cell of the `h × w` box anchored at `pos`. -/
def forCells (h w : Nat) (pos : Nat × Nat) (g : Grid (List Nat))
    (f : List Nat → List Nat) : Grid (List Nat) :=
  (List.range h).foldl
    (fun acc y =>
      (List.range w).foldl (fun acc₂ x => cellModify acc₂ (pos.2 + y) (pos.1 + x) f) acc)
    g

/-- `Layout.add_child`: reject duplicates (unless `skip_checks`), oversized
children and children that do not fit at `pos`; then append to `children`
(unless `skip_checks`), record the location and push the child onto the
coverage stack of every cell of its bounding box. -/
def addChild (st : LayoutState) (wid : Nat) (pos : Nat × Nat) (skip_checks : Bool) :
    Except String LayoutState :=
  let child := widgetData st wid
  if wid ∈ st.children ∧ ¬skip_checks then
    .error "BearLayoutException: Cannot add the same widget to layout twice"
  else if child.chars.length > st.pointers.length
      ∨ (child.chars.getD 0 []).length > (st.pointers.getD 0 []).length then
    .error "BearLayoutException: Cannot add child that is bigger than a Layout"
  else if child.chars.length + pos.2 > st.pointers.length
      ∨ (child.chars.getD 0 []).length + pos.1 > (st.pointers.getD 0 []).length then
    .error "BearLayoutException: Child will not fit at this position"
  else
    .ok { st with
      children := if skip_checks then st.children else st.children ++ [wid]
      child_locations := assocSet st.child_locations wid pos
      pointers := forCells child.chars.length (child.chars.getD 0 []).length pos
          st.pointers fun cell => cell ++ [wid] }

/-- `Layout.remove_child`: reject non-children; pop the child from the
coverage stack of every cell of its box (`list.remove`, first occurrence;
those cells contain it by the `add_child` invariant); when
`remove_completely`, also drop its location entry and children slot. -/
def removeChild (st : LayoutState) (wid : Nat) (remove_completely : Bool) :
    Except String LayoutState :=
  if wid ∉ st.children then .error "BearLayoutException: Layout can only remove its child"
  else
    let child := widgetData st wid
    let loc := (st.child_locations.lookup wid).getD (0, 0)
    let ptrs := forCells child.chars.length (child.chars.getD 0 []).length loc
        st.pointers fun cell => cell.erase wid
    if remove_completely then
      .ok { st with
        pointers := ptrs
        child_locations := assocDel st.child_locations wid
        children := st.children.erase wid }
    else
      .ok { st with pointers := ptrs }

/-- `Layout.move_child` = `remove_child(remove_completely=False)` followed by
`add_child(skip_checks=True)`. -/
def moveChild (st : LayoutState) (wid : Nat) (new_pos : Nat × Nat) :
    Except String LayoutState := do
  let st₂ ← removeChild st wid false
  addChild st₂ wid new_pos true

/-- One step of the per-cell scan of `Layout._rebuild_self`: the accumulator is
`(highest_z, c, col)`; a child is considered when its z-level is at least the
running `highest_z`, and it overwrites the current char/colour unless it would
replace a non-space char with a space. -/
def rebuildCellStep (acc : ℤ × Char × Option String) (e : ℤ × Char × String) :
    ℤ × Char × Option String :=
  if e.1 ≥ acc.1 then
    if acc.2.1 ≠ ' ' ∧ e.2.1 = ' ' then acc
    else (e.1, e.2.1, some e.2.2)
  else acc

/-- The full per-cell scan of `_rebuild_self`, started from
`highest_z = 0, c = ' ', col = None`. -/
def rebuildCell (stack : List (ℤ × Char × String)) : Char × Option String :=
  let r := stack.foldl rebuildCellStep (0, ' ', none)
  (r.2.1, r.2.2)

/-- The coverage stack of one cell, as `_rebuild_self` reads it: for every
widget covering the cell, its z-level and its char/colour at the cell
(indexing is in range for covering children by the `add_child` invariant). -/
def cellStack (st : LayoutState) (line char : Nat) : List (ℤ × Char × String) :=
  (gridGet st.pointers line char []).map fun wid =>
    let w := widgetData st wid
    let loc := (st.child_locations.lookup wid).getD (0, 0)
    (w.z_level, gridGet w.chars (line - loc.2) (char - loc.1) ' ',
     gridGet w.colors (line - loc.2) (char - loc.1) "")

/-- `Layout._rebuild_self`: recompute every cell of chars/colors from its
coverage stack.  The source writes the Python `None` colour into cells whose
scan never fires; that cannot happen when the background covers the grid, and
the model defaults such a colour to `""`. -/
def rebuildSelf (st : LayoutState) : LayoutState :=
  let cells := (List.range st.chars.length).map fun line =>
    (List.range (st.chars.getD 0 []).length).map fun char =>
      rebuildCell (cellStack st line char)
  { st with chars := cells.map fun row => row.map Prod.fst
            colors := cells.map fun row => row.map fun c => c.2.getD "" }

/-- `Layout.__init__`: run the `Widget` shape check on the background grids,
start with empty coverage stacks, then `add_child` a background widget holding
the Layout's own chars/colors at `(0, 0)` (store id 0). -/
def mkLayout (chars : Grid Char) (colors : Grid String) : Except String LayoutState := do
  let _ ← mkWidget chars colors 0
  let st : LayoutState :=
    { store := [⟨0, chars, colors⟩], children := [], child_locations := []
      pointers := chars.map fun row => row.map fun _ => []
      chars := chars, colors := colors, need_redraw := false }
  addChild st 0 (0, 0) false

/-- Allocate a fresh widget in the layout's store, returning its id. -/
def layoutNewWidget (st : LayoutState) (w : PyWidget Char String) :
    LayoutState × Nat :=
  ({ st with store := st.store ++ [w] }, st.store.length)

/-- The state of an `ECSLayout` on top of a `LayoutState`: the
`entities`/`widgets` dicts, merged into one map from entity id to the id of
`entity.widget.widget` (the source keeps both dicts keyed identically). -/
structure ECSLayoutState where
  layout : LayoutState
  entities : List (String × Nat)
  deriving DecidableEq

/-- The `ecs_move` branch of `ECSLayout.on_event`: unknown entities are
silently ignored; a target box that sticks out of the layout grid yields a
single border-collision event `(entity_id, None)` and no state change;
otherwise the child is moved and `need_redraw` is set.  (The per-cell
entity-collision scan that the spec describes here is commented out in the
source; entity collisions are `CollisionListener`'s job.) -/
def ecsMoveEvent (st : ECSLayoutState) (entity_id : String) (x y : ℤ) :
    Except String (ECSLayoutState × List (String × Option String)) :=
  match st.entities.lookup entity_id with
  | none => .ok (st, [])
  | some wid =>
      let w := widgetData st.layout wid
      if x < 0 ∨ x + ((w.chars.getD 0 []).length : ℤ) > ((st.layout.chars.getD 0 []).length : ℤ)
          ∨ y < 0 ∨ y + (w.chars.length : ℤ) > (st.layout.chars.length : ℤ) then
        .ok (st, [(entity_id, none)])
      else do
        let l₂ ← moveChild st.layout wid (x.toNat, y.toNat)
        .ok ({ st with layout := { l₂ with need_redraw := true } }, [])

/-- Scenario A: a 10×10 layout with background fill `'.'` and a 2×2 child of
`'#'` added at `(3, 3)`. -/
def scenarioALayout : Except String LayoutState := do
  let st ← mkLayout (List.replicate 10 (List.replicate 10 '.'))
      (List.replicate 10 (List.replicate 10 "white"))
  let p := layoutNewWidget st ⟨0, List.replicate 2 (List.replicate 2 '#'),
      List.replicate 2 (List.replicate 2 "red")⟩
  addChild p.1 p.2 (3, 3) false

/-- Counterexample layout for the recompositing claim: a 1×1 layout with a
space background, then a transparent child at z-level 5, then an opaque child
`'x'` at z-level 2, all covering the single cell. -/
def counterLayout : Except String LayoutState := do
  let st ← mkLayout [[' ']] [["white"]]
  let p ← (do
    let q := layoutNewWidget st ⟨5, [[' ']], [["red"]]⟩
    addChild q.1 q.2 (0, 0) false)
  let q := layoutNewWidget p ⟨2, [['x']], [["blue"]]⟩
  addChild q.1 q.2 (0, 0) false

/-- A concrete 1×1 ECS layout whose single registered entity `"E"` owns the
1×1 background widget (id 0), used by the border-collision witness. -/
def ecsBorderWitnessState : ECSLayoutState :=
  ⟨⟨[⟨0, [['.']], [["w"]]⟩], [0], [(0, 0, 0)], [[[0]]], [['.']], [["w"]], false⟩,
   [("E", 0)]⟩

/-! ## Serialization (`Widget.__repr__` / `deserialize_widget` and the
container `__repr__` overrides) -/

/-- A Python string, embedded as its character list. -/
abbrev PyStr := List Char

/-- `','.join(strings)` as used by `Widget.__repr__` on a colors row. -/
def joinComma : List PyStr → PyStr
  | [] => []
  | [x] => x
  | x :: xs => x ++ ',' :: joinComma xs

/-- `s.split(',')` as used by `deserialize_widget` on a colors string
(Python semantics: splitting the empty string yields `['']`). -/
def splitComma : PyStr → List PyStr
  | [] => [[]]
  | c :: rest =>
      if c = ',' then [] :: splitComma rest
      else
        match splitComma rest with
        | [] => [[c]]
        | r :: rs => (c :: r) :: rs

/-- The JSON dict produced by `Widget.__repr__`: class discriminator, chars
rows joined to plain strings (`''.join` of single characters — the row
itself) and colour rows joined with commas.  `z_level` is **not** dumped. -/
structure WidgetSerial where
  cls : String
  chars : List PyStr
  colors : List PyStr
  deriving DecidableEq

/-- `Widget.__repr__` for a base Widget (colour cells are Python strings). -/
def widgetRepr (w : PyWidget Char PyStr) : WidgetSerial :=
  ⟨"Widget", w.chars, w.colors.map joinComma⟩

/-- `deserialize_widget` restricted to the base `Widget` class: rebuild chars
per character and colours by splitting on commas, then call the constructor
(shape check included).  The dump carries no kwargs beyond chars/colors, so
`z_level` takes the constructor default 0. -/
def deserializeWidget (d : WidgetSerial) : Except String (PyWidget Char PyStr) :=
  if d.cls = "Widget" then mkWidget d.chars (d.colors.map splitComma) 0
  else .error "BearJSONException: only the base Widget class is modelled"

/-- The extra view state of a `ScrollableLayout`. -/
structure ScrollableLayoutState where
  layout : LayoutState
  view_pos : Nat × Nat
  view_size : Nat × Nat

/-- The state of an `InputScrollable` wrapper. -/
structure InputScrollableState where
  scrollable : ScrollableLayoutState
  building_self : Bool

/-- The state of a `ScrollableECSLayout`. -/
structure ScrollableECSLayoutState where
  layout : LayoutState
  entities : List (String × Nat)
  view_pos : Nat × Nat
  view_size : Nat × Nat

/-- `Layout.__repr__`: unconditionally raises `BearException`. -/
def layoutRepr (_ : LayoutState) : Except String WidgetSerial :=
  .error "BearException: Layout does not support repr serialization"

/-- `ScrollableLayout.__repr__`: unconditionally raises `BearException`. -/
def scrollableLayoutRepr (_ : ScrollableLayoutState) : Except String WidgetSerial :=
  .error "BearException: ScrollableLayout does not support repr serialization"

/-- `InputScrollable.__repr__`: unconditionally raises `BearException`. -/
def inputScrollableRepr (_ : InputScrollableState) : Except String WidgetSerial :=
  .error "BearException: InputScrollable does not support repr serialization"

/-- `ECSLayout.__repr__`: unconditionally raises `BearECSException`. -/
def ecsLayoutRepr (_ : ECSLayoutState) : Except String WidgetSerial :=
  .error "BearECSException: ECSLayout is not meant to be stored via repr"

/-- `ScrollableECSLayout.__repr__`: unconditionally raises
`BearECSException`. -/
def scrollableECSLayoutRepr (_ : ScrollableECSLayoutState) :
    Except String WidgetSerial :=
  .error "BearECSException: ScrollableECSLayout is not meant to be stored via repr"

/-! ## Destructor lifecycle (`bear_hug/ecs.py`: `DestructorComponent`,
`EntityTracker`, with the dispatcher drain of `bear_hug/event.py`) -/

/-- Event payloads appearing in the destruction scenario: nothing, or a
string (an entity id, or the `'tick_over'` service marker).  The elapsed-time
payload of a `tick` event is irrelevant to every listener in the scenario and
is modelled as `vNone`. -/
inductive EValue where
  | vNone
  | vStr (s : String)
  deriving DecidableEq

/-- An event in the destruction scenario. -/
structure ECSEvent where
  event_type : String
  event_value : EValue
  deriving DecidableEq

/-- The world of the destruction scenario: the dispatcher (event types,
listener lists keyed by type, FIFO queue), the `EntityTracker().entities`
keys, and the single modelled entity "E" (its `components` slot-name list and
its destructor's `is_destroying` flag).  Listeners are named `"tracker"`,
`"E:position"`, `"E:widget"` and `"E:destructor"`. -/
structure ECSWorld where
  event_types : List String
  listeners : List (String × List String)
  queue : List ECSEvent
  tracker : List String
  components : List String
  is_destroying : Bool
  deriving DecidableEq

/-- `BearEventDispatcher.add_event` over the scenario world. -/
def ecsAddEvent (w : ECSWorld) (e : ECSEvent) : Except String ECSWorld :=
  if e.event_type ∈ w.event_types then .ok { w with queue := w.queue ++ [e] }
  else .error "BearLoopException: Incorrect event type"

/-- `BearEventDispatcher.unregister_listener(listener, 'all')`: remove the
listener from every per-type list in which it occurs. -/
def unregisterAll (ls : List (String × List String)) (l : String) :
    List (String × List String) :=
  ls.map fun p => (p.1, p.2.erase l)

/-- `EntityTracker.on_event`: record entities on `ecs_create`, delete them on
`ecs_destroy` (`del` raises `KeyError` on an unknown id). -/
def trackerOnEvent (w : ECSWorld) (e : ECSEvent) : Except String ECSWorld :=
  if e.event_type = "ecs_create" then
    match e.event_value with
    | .vStr id => .ok { w with tracker := if id ∈ w.tracker then w.tracker else w.tracker ++ [id] }
    | _ => .error "TypeError: ecs_create carries the entity object"
  else if e.event_type = "ecs_destroy" then
    match e.event_value with
    | .vStr id =>
        if id ∈ w.tracker then .ok { w with tracker := w.tracker.erase id }
        else .error "KeyError"
    | _ => .error "KeyError"
  else .ok w

/-- `Entity.remove_component`: drop the named slot or raise. -/
def removeComponent (w : ECSWorld) (name : String) : Except String ECSWorld :=
  if name ∈ w.components then .ok { w with components := w.components.erase name }
  else .error "BearECSException: Cannot remove component that Entity does not have"

/-- `DestructorComponent.destroy()` for owner "E": enqueue
`('ecs_destroy', owner.id)`, set `is_destroying`, and immediately unsubscribe
every sibling component (every slot except `'destructor'`) from all events. -/
def destructorDestroy (w : ECSWorld) : Except String ECSWorld := do
  let w₁ ← ecsAddEvent w ⟨"ecs_destroy", .vStr "E"⟩
  let w₂ := { w₁ with is_destroying := true }
  .ok (w₂.components.foldl
    (fun acc c =>
      if c ≠ "destructor" then
        { acc with listeners := unregisterAll acc.listeners ("E:" ++ c) }
      else acc)
    w₂)

/-- `DestructorComponent.on_event`: on a `'tick_over'` service event while
`is_destroying`, unsubscribe and detach every other component (iterating a
snapshot `victims` of the slot list), then unsubscribe and detach itself. -/
def destructorOnEvent (w : ECSWorld) (e : ECSEvent) : Except String ECSWorld :=
  if w.is_destroying ∧ e.event_type = "service" ∧ e.event_value = .vStr "tick_over" then do
    let w₂ ← w.components.foldlM
      (fun acc c =>
        if c ≠ "destructor" then
          removeComponent { acc with listeners := unregisterAll acc.listeners ("E:" ++ c) } c
        else .ok acc)
      w
    removeComponent { w₂ with listeners := unregisterAll w₂.listeners "E:destructor" }
      "destructor"
  else .ok w

/-- Deliver one event to one named listener.  `"E:position"` (velocity zero)
and `"E:widget"` (a plain `Widget`) do nothing on every event type of the
scenario; every callback returns `None`. -/
def ecsListenerOnEvent (w : ECSWorld) (l : String) (e : ECSEvent) :
    Except String ECSWorld :=
  if l = "tracker" then trackerOnEvent w e
  else if l = "E:destructor" then destructorOnEvent w e
  else .ok w

/-- The inner listener loop of `dispatch_events` with Python's live-list
iteration semantics: the listener list for the event's type is re-read from
the world at every index, so a callback unsubscribing listeners mid-delivery
shortens the iteration, exactly as mutating the iterated Python list does.
(No callback rebinds `listeners[event_type]` to a new object, so re-reading
matches iterating the mutated list.) -/
def ecsRunListeners (e : ECSEvent) : Nat → ECSWorld → Nat → Except String ECSWorld
  | 0, _, _ => .error "out of fuel"
  | fuel + 1, w, idx =>
      match w.listeners.lookup e.event_type with
      | none => .error "KeyError"
      | some ls =>
          if h : idx < ls.length then
            match ecsListenerOnEvent w (ls.get ⟨idx, h⟩) e with
            | .error m => .error m
            | .ok w₂ => ecsRunListeners e fuel w₂ (idx + 1)
          else .ok w

/-- `BearEventDispatcher.dispatch_events` over the scenario world: drain the
FIFO, delivering each popped event through `ecsRunListeners`.  Every callback
in the scenario returns `None`, so the `if r:` enqueue branch never fires. -/
def ecsDispatch : Nat → ECSWorld → Except String ECSWorld
  | 0, w => if w.queue.isEmpty then .ok w else .error "out of fuel"
  | fuel + 1, w =>
      match w.queue with
      | [] => .ok w
      | e :: rest =>
          match ecsRunListeners e (fuel + 1) { w with queue := rest } 0 with
          | .error m => .error m
          | .ok w₂ => ecsDispatch fuel w₂

/-- Scenario D initial world: entity "E" with position, widget and destructor
components, all subscribed as their `__init__`s do (position and widget to
`tick`, destructor to `service` and `tick`), the tracker subscribed to
`ecs_create`/`ecs_destroy`, the tracker knowing "E", and an empty queue. -/
def ecsW0 : ECSWorld :=
  { event_types := ["tick", "key_down", "key_up", "misc_input", "text_input",
      "play_sound", "set_bg_sound", "service", "ecs_create", "ecs_move",
      "ecs_collision", "ecs_add", "ecs_destroy", "ecs_remove",
      "ecs_scroll_by", "ecs_scroll_to", "ecs_update"]
    listeners := [("ecs_create", ["tracker"]), ("ecs_destroy", ["tracker"]),
      ("tick", ["E:widget", "E:position", "E:destructor"]),
      ("service", ["E:destructor"])]
    queue := []
    tracker := ["E"]
    components := ["position", "widget", "destructor"]
    is_destroying := false }

/-- The world right after `destroy()` is called on "E". -/
def ecsAfterDestroy : Except String ECSWorld := destructorDestroy ecsW0

/-- Then a `tick` event is enqueued and the queue (holding the pending
`ecs_destroy` followed by the `tick`) is drained. -/
def ecsMidTick : Except String ECSWorld := do
  let w₁ ← ecsAfterDestroy
  let w₂ ← ecsAddEvent w₁ ⟨"tick", .vNone⟩
  ecsDispatch 10 w₂

/-- Then the end-of-tick signal (`'tick_over'` service event) is enqueued and
drained. -/
def ecsFinal : Except String ECSWorld := do
  let w₁ ← ecsMidTick
  let w₂ ← ecsAddEvent w₁ ⟨"service", .vStr "tick_over"⟩
  ecsDispatch 10 w₂

/-- Whether a listener occurs in any per-type listener list. -/
def subscribedAnywhere (w : ECSWorld) (l : String) : Bool :=
  w.listeners.any fun p => p.2.contains l

theorem assocSet_lookup [DecidableEq κ] (l : List (κ × α)) (k : κ) (v : α) :
    (assocSet l k v).lookup k = some v := by
  induction l with
  | nil => simp [assocSet, List.lookup]
  | cons p rest ih =>
      obtain ⟨k₀, v₀⟩ := p
      by_cases h : k₀ = k
      · simp [assocSet, h, List.lookup]
      · have hb : (k == k₀) = false := beq_eq_false_iff_ne.mpr (Ne.symm h)
        simp [assocSet, h, List.lookup, hb, ih]

/-- **C10** — re-registering an already-registered event type keeps the set of
valid event types unchanged but resets the listener list for that type to `[]`,
so a subsequent event of that type is delivered to nobody (the delivery log
does not grow). -/
theorem register_event_type_existing (st : DispatcherState) (t : String)
    (h : t ∈ st.event_types) :
    (∀ u, u ∈ (register_event_type st t).event_types ↔ u ∈ st.event_types)
    ∧ (register_event_type st t).listeners.lookup t = some []
    ∧ ∀ (beh : Nat → BearEvent → PyRet) (v : Int) (log : List (Nat × BearEvent)) (fuel : Nat),
        dispatch_events beh (fuel + 1)
          { register_event_type st t with queue := [⟨t, v⟩] } log
        = .ok ({ register_event_type st t with queue := [] }, log) := by
  refine ⟨?_, ?_, ?_⟩
  · intro u
    simp [register_event_type, if_pos h]
  · exact assocSet_lookup st.listeners t []
  · intro beh v log fuel
    simp only [dispatch_events]
    have hl : (register_event_type st t).listeners.lookup t = some [] :=
      assocSet_lookup st.listeners t []
    simp only [hl, runListeners]
    cases fuel <;> simp [dispatch_events]

theorem foldlM_add_event (es : List BearEvent) (st : DispatcherState)
    (h : ∀ e ∈ es, e.event_type ∈ st.event_types) :
    es.foldlM add_event st = .ok { st with queue := st.queue ++ es } := by
  induction es generalizing st with
  | nil =>
      simp only [List.foldlM_nil, List.append_nil]
      rfl
  | cons e rest ih =>
      have he : add_event st e = .ok { st with queue := st.queue ++ [e] } := by
        simp [add_event, h e (by simp)]
      rw [List.foldlM_cons, he]
      show rest.foldlM add_event { st with queue := st.queue ++ [e] } = _
      rw [ih { st with queue := st.queue ++ [e] } (fun x hx => h x (by simp [hx]))]
      simp

theorem processRet_evList (st : DispatcherState) (gen : List BearEvent)
    (h : ∀ e ∈ gen, e.event_type ∈ st.event_types) :
    processRet st (.evList gen) = .ok { st with queue := st.queue ++ gen } := by
  cases gen with
  | nil => simp [processRet, PyRet.truthy]
  | cons e rest =>
      simp only [processRet, PyRet.truthy, List.isEmpty_cons, Bool.not_false, if_true]
      exact foldlM_add_event (e :: rest) st h

theorem processRet_safe (st : DispatcherState) (r : PyRet)
    (h : retSafe st.event_types r) :
    ∃ st₂, processRet st r = .ok st₂ ∧ st₂.event_types = st.event_types
      ∧ st₂.listeners = st.listeners := by
  rcases h with hf | ⟨e, rfl, he⟩ | ⟨es, rfl, hes⟩
  · exact ⟨st, by simp [processRet, hf], rfl, rfl⟩
  · exact ⟨{ st with queue := st.queue ++ [e] },
      by simp [processRet, PyRet.truthy, add_event, he], rfl, rfl⟩
  · exact ⟨{ st with queue := st.queue ++ es }, processRet_evList st es hes, rfl, rfl⟩

/-- **C1** — FIFO dispatch order.  First conjunct: processing the first `n`
pending events delivers them, in enqueue order, to the listener subscribed to
all their types, and every event a callback returns is appended to the pending
FIFO strictly after everything that was already pending.  Second conjunct:
draining stops exactly when the queue is empty (so mid-drain events are
processed before the drain ends). -/
theorem dispatch_events_fifo_order :
    (∀ (beh : Nat → BearEvent → PyRet) (L : Nat) (types : List String)
       (lst : List (String × List Nat)) (gen : BearEvent → List BearEvent)
       (es rest : List BearEvent) (log : List (Nat × BearEvent)) (fuel : Nat),
       (∀ e ∈ es, lst.lookup e.event_type = some [L]) →
       (∀ e ∈ es, beh L e = .evList (gen e)) →
       (∀ e ∈ es, ∀ x ∈ gen e, x.event_type ∈ types) →
       dispatch_events beh (es.length + fuel) ⟨types, lst, es ++ rest⟩ log
         = dispatch_events beh fuel ⟨types, lst, rest ++ es.flatMap gen⟩
             (log ++ es.map fun e => (L, e)))
    ∧ (∀ (beh : Nat → BearEvent → PyRet) (fuel : Nat) (st : DispatcherState)
         (log : List (Nat × BearEvent)), st.queue = [] →
         dispatch_events beh fuel st log = .ok (st, log)) := by
  constructor
  · intro beh L types lst gen es rest log fuel hsub hbeh hvalid
    induction es generalizing rest log with
    | nil => simp
    | cons e es ih =>
        have hstep : (e :: es).length + fuel = (es.length + fuel) + 1 := by
          simp [List.length_cons]; omega
        rw [hstep]
        simp only [dispatch_events, List.cons_append]
        rw [hsub e (by simp)]
        simp only [runListeners, hbeh e (by simp)]
        rw [processRet_evList _ (gen e) (fun x hx => hvalid e (by simp) x hx)]
        simp only []
        have := ih (rest ++ gen e) (log ++ [(L, e)])
          (fun x hx => hsub x (by simp [hx]))
          (fun x hx => hbeh x (by simp [hx]))
          (fun x hx => hvalid x (by simp [hx]))
        simp only [List.append_assoc] at this ⊢
        rw [this]
        simp [List.flatMap_cons, List.append_assoc]
  · intro beh fuel st log hq
    cases fuel <;> simp [dispatch_events, hq, List.isEmpty_nil]

/-- Witness for `dispatch_events_fifo_order` on a concrete dispatcher with one
listener (`7`) subscribed to all types: two pending `tick` events are delivered
in order, and the event generated by the first callback lands behind the
already-pending `restW`. -/
theorem dispatch_events_fifo_order_witness :
    (∀ e ∈ esW, lstW.lookup e.event_type = some [7])
    ∧ dispatch_events behW (esW.length + 1) ⟨typesW, lstW, esW ++ restW⟩ []
        = dispatch_events behW 1 ⟨typesW, lstW, restW ++ esW.flatMap genW⟩
            ([] ++ esW.map fun e => (7, e)) :=
  ⟨by decide,
    dispatch_events_fifo_order.1 behW 7 typesW lstW genW esW restW [] 1
      (by decide) (fun e _ => rfl) (by decide)⟩

/-- **C9 counterexample** — a listener whose callback returns the Python value
`0` (falsy: neither `None`, nor a `BearEvent`, nor a list) does **not** make
`dispatch_events` raise `BearLoopException`: the drain completes normally and
the return is silently ignored, because the guard `if r:` skips every falsy
return value. -/
theorem dispatch_falsy_bad_return_ignored :
    dispatch_events (fun _ _ => .other false) 1
        ⟨["tick"], [("tick", [0])], [⟨"tick", 0⟩]⟩ []
      = .ok (⟨["tick"], [("tick", [0])], []⟩, [(0, ⟨"tick", 0⟩)]) := rfl

theorem runListeners_reaches_bad (beh : Nat → BearEvent → PyRet)
    (e : BearEvent) (types : List String) (ls₂ : List Nat) (l : Nat)
    (hbad : beh l e = .other true) :
    ∀ (ls₁ : List Nat) (st : DispatcherState) (log : List (Nat × BearEvent)),
      st.event_types = types → (∀ l₀ ∈ ls₁, retSafe types (beh l₀ e)) →
      runListeners beh e (ls₁ ++ l :: ls₂) st log = .error badReturnMsg := by
  intro ls₁
  induction ls₁ with
  | nil =>
      intro st log _ _
      simp [runListeners, hbad, processRet, PyRet.truthy]
  | cons l₀ ls₁ ih =>
      intro st log hty hsafe
      obtain ⟨st₂, hok, hty₂, -⟩ :=
        processRet_safe st (beh l₀ e) (hty ▸ hsafe l₀ (by simp))
      simp only [List.cons_append, runListeners, hok]
      exact ih st₂ (log ++ [(l₀, e)]) (hty₂.trans hty)
        (fun x hx => hsafe x (by simp [hx]))

/-- **C9 amended** — during `dispatch_events`, a *truthy* callback return that
is neither a `BearEvent` nor a list raises `BearLoopException`, provided the
listeners called earlier for the same event returned acceptable values. -/
theorem dispatch_truthy_bad_return_raises (beh : Nat → BearEvent → PyRet)
    (types : List String) (lst : List (String × List Nat)) (e : BearEvent)
    (rest : List BearEvent) (ls₁ ls₂ : List Nat) (l : Nat)
    (log : List (Nat × BearEvent)) (fuel : Nat)
    (hlk : lst.lookup e.event_type = some (ls₁ ++ l :: ls₂))
    (hprev : ∀ l₀ ∈ ls₁, retSafe types (beh l₀ e))
    (hbad : beh l e = .other true) :
    dispatch_events beh (fuel + 1) ⟨types, lst, e :: rest⟩ log
      = .error badReturnMsg := by
  simp only [dispatch_events, hlk]
  rw [runListeners_reaches_bad beh e types ls₂ l hbad ls₁
    ⟨types, lst, rest⟩ log rfl hprev]

/-- Witness for `dispatch_truthy_bad_return_raises`: a listener returning a
truthy non-event (e.g. the Python value `42`) aborts the drain with
`BearLoopException`. -/
theorem dispatch_truthy_bad_return_raises_witness :
    dispatch_events (fun _ _ => .other true) 1
        ⟨["tick"], [("tick", [0])], [⟨"tick", 0⟩]⟩ []
      = .error badReturnMsg :=
  dispatch_truthy_bad_return_raises (fun _ _ => .other true) ["tick"]
    [("tick", [0])] ⟨"tick", 0⟩ [] [] [] 0 [] 0 (by decide)
    (by intro l₀ h; cases h) rfl

/-- Witness for `register_event_type_existing` at a concrete dispatcher. -/
theorem register_event_type_existing_witness :
    let st : DispatcherState := ⟨["tick", "service"], [("tick", [0, 1]), ("service", [0])], []⟩
    ("tick" ∈ st.event_types)
    ∧ (register_event_type st "tick").listeners.lookup "tick" = some [] := by
  refine ⟨by decide, ?_⟩
  exact (register_event_type_existing
    ⟨["tick", "service"], [("tick", [0, 1]), ("service", [0])], []⟩ "tick" (by decide)).2.1

theorem shapes_equal_iff (a : List (List χ)) (b : List (List κ)) :
    shapes_equal a b = true ↔
      a.length = b.length
      ∧ List.Forall₂ (fun (r : List χ) (s : List κ) => r.length = s.length) a b := by
  rw [List.forall₂_iff_zip]
  simp only [shapes_equal, Bool.and_eq_true, beq_iff_eq, Bool.not_eq_true',
    List.any_eq_false, bne_iff_ne, ne_eq, not_not]
  constructor
  · rintro ⟨hl, hz⟩
    exact ⟨hl, hl, fun {x y} hxy => hz (x, y) hxy⟩
  · rintro ⟨hl, -, hz⟩
    exact ⟨hl, fun x hx => hz hx⟩

/-- **C7** — constructing a Widget fails exactly when `chars` and `colors`
differ in outer length or in some per-row length; every successfully
constructed Widget satisfies the shape invariant; and flipping along any axis
preserves the invariant. -/
theorem widget_shape_invariant :
    (∀ (chars : List (List Char)) (colors : List (List String)) (z : Int),
       (∃ m, mkWidget chars colors z = .error m) ↔
         ¬(chars.length = colors.length
           ∧ List.Forall₂ (fun r s => r.length = s.length) chars colors))
    ∧ (∀ (chars : List (List Char)) (colors : List (List String)) (z : Int)
         (w : PyWidget Char String),
         mkWidget chars colors z = .ok w → WidgetShapeOk w)
    ∧ (∀ (w : PyWidget Char String) (axis : String),
         WidgetShapeOk w → WidgetShapeOk (widgetFlip w axis)) := by
  refine ⟨?_, ?_, ?_⟩
  · intro chars colors z
    rw [← shapes_equal_iff]
    unfold mkWidget
    by_cases h : shapes_equal chars colors = true
    · simp [h]
    · simp [h]
  · intro chars colors z w hok
    unfold mkWidget at hok
    by_cases h : shapes_equal chars colors = true
    · rw [if_pos h] at hok
      cases hok
      exact (shapes_equal_iff chars colors).mp h
    · rw [if_neg h] at hok
      cases hok
  · intro w axis ⟨hl, hf⟩
    unfold widgetFlip
    by_cases hx : axis = "x" ∨ axis = "horizontal"
    · rw [if_pos hx]
      refine ⟨by simp [hl], ?_⟩
      simp only [List.forall₂_map_left_iff, List.forall₂_map_right_iff]
      refine hf.imp fun r s h => ?_
      simp only [List.length_reverse]
      exact h
    · rw [if_neg hx]
      by_cases hy : axis = "y" ∨ axis = "vertical"
      · rw [if_pos hy]
        exact ⟨by simp [hl], List.forall₂_reverse_iff.mpr hf⟩
      · rw [if_neg hy]
        exact ⟨hl, hf⟩

/-- Witness for `widget_shape_invariant`: a concrete 1×2 widget keeps its
shape invariant after a horizontal flip. -/
theorem widget_shape_invariant_witness :
    WidgetShapeOk
      (widgetFlip (⟨0, [['a', 'b']], [["w", "w"]]⟩ : PyWidget Char String) "x") :=
  widget_shape_invariant.2.2 ⟨0, [['a', 'b']], [["w", "w"]]⟩ "x"
    ⟨rfl, .cons rfl .nil⟩

theorem pyRound_ge_one {q : ℚ} (h : 1 < q) : 1 ≤ pyRound q := by
  have hf : (1 : ℤ) ≤ ⌊q⌋ := by
    rw [Int.le_floor]
    exact_mod_cast h.le
  unfold pyRound
  split
  · exact hf
  · split
    · omega
    · split
      · exact hf
      · omega

/-- **C6** — velocity integration of `PositionComponent`.  General part: on a
`tick` of length `dt`, an axis clock accumulates `dt`; once the x clock
strictly exceeds the delay `1/|vx|`, the x coordinate advances by
`round(waited/delay)` tiles in the sign of `vx`, the x clock resets to zero,
and a single `ecs_move` event carrying `(owner_id, new_x, new_y)` is emitted.
Scenario part (Scenario B): from `(0,0)` with velocity `(2,0)`, three ticks of
`0.5 s` emit exactly one `ecs_move` (on the second tick, carrying `("B",2,0)`)
and leave the x coordinate at `round(1.0/0.5) = 2`. -/
theorem positionComponent_velocity_integration :
    (∀ (s : PositionState) (dt : ℚ),
       s.vx ≠ 0 →
       s.x_delay = some |1 / s.vx| →
       s.x_waited + dt > |1 / s.vx| →
       (posOnEventTick s dt).1.x
           = s.x + (if s.vx > 0 then 1 else -1)
               * pyRound ((s.x_waited + dt) / |1 / s.vx|)
         ∧ (posOnEventTick s dt).1.x_waited = 0
         ∧ (0 < dt → (posOnEventTick s dt).2
             = [(s.owner_id, (posOnEventTick s dt).1.x, (posOnEventTick s dt).1.y)]))
    ∧ ((posOnEventTick posScenarioB (1 / 2)).2 = []
       ∧ (posOnEventTick (posOnEventTick posScenarioB (1 / 2)).1 (1 / 2)).2
           = [("B", 2, 0)]
       ∧ (posOnEventTick (posOnEventTick
            (posOnEventTick posScenarioB (1 / 2)).1 (1 / 2)).1 (1 / 2)).2 = []
       ∧ (posOnEventTick (posOnEventTick
            (posOnEventTick posScenarioB (1 / 2)).1 (1 / 2)).1 (1 / 2)).1.x = 2) := by
  constructor
  · intro s dt hvx hdel hcross
    have hd : (0 : ℚ) < |1 / s.vx| := abs_pos.mpr (one_div_ne_zero hvx)
    have hratio : 1 < (s.x_waited + dt) / |1 / s.vx| :=
      (one_lt_div hd).mpr hcross
    have hro : 1 ≤ pyRound ((s.x_waited + dt) / |1 / s.vx|) := pyRound_ge_one hratio
    unfold posOnEventTick
    rw [if_pos (Or.inl hvx), hdel]
    simp only [if_pos hcross]
    by_cases hpos : s.vx > 0
    · simp only [if_pos hpos]
      have hne : s.x + pyRound ((s.x_waited + dt) / |1 / s.vx|) ≠ s.x := by omega
      rw [if_pos (Or.inl hne)]
      refine ⟨by simp [posMove], by simp [posMove], fun _ => by simp [posMove]⟩
    · simp only [if_neg hpos]
      have hne : s.x - pyRound ((s.x_waited + dt) / |1 / s.vx|) ≠ s.x := by omega
      rw [if_pos (Or.inl hne)]
      have hs : (if s.vx > 0 then (1 : ℤ) else -1) = -1 := if_neg hpos
      refine ⟨by simp [posMove, hs]; ring, by simp [posMove], fun _ => by simp [posMove]⟩
  · have h1 : posOnEventTick posScenarioB (1 / 2)
        = (⟨"B", 0, 0, 2, 0, some (1 / 2), none, 1 / 2, 1 / 2, (1, 0)⟩, []) := by
      norm_num [posOnEventTick, posScenarioB, mkPositionComponent, abs_of_pos]
    have h2 : posOnEventTick
          ⟨"B", 0, 0, 2, 0, some (1 / 2), none, 1 / 2, 1 / 2, (1, 0)⟩ (1 / 2)
        = (⟨"B", 2, 0, 2, 0, some (1 / 2), none, 0, 1, (2, 0)⟩, [("B", 2, 0)]) := by
      norm_num [posOnEventTick, posMove, pyRound, Int.fract]
    have h3 : posOnEventTick
          ⟨"B", 2, 0, 2, 0, some (1 / 2), none, 0, 1, (2, 0)⟩ (1 / 2)
        = (⟨"B", 2, 0, 2, 0, some (1 / 2), none, 1 / 2, 3 / 2, (2, 0)⟩, []) := by
      norm_num [posOnEventTick]
    refine ⟨?_, ?_, ?_, ?_⟩ <;> simp only [h1, h2, h3]

/-- Witness for `positionComponent_velocity_integration`: the general part
applied at the concrete state reached after the first `0.5 s` tick of
Scenario B (clock at `0.5`, delay `0.5`), where the next tick crosses. -/
theorem positionComponent_velocity_integration_witness :
    let s : PositionState := ⟨"B", 0, 0, 2, 0, some (1 / 2), none, 1 / 2, 1 / 2, (1, 0)⟩
    s.vx ≠ 0
    ∧ (posOnEventTick s (1 / 2)).1.x
        = s.x + (if s.vx > 0 then 1 else -1)
            * pyRound ((s.x_waited + 1 / 2) / |1 / s.vx|) :=
  ⟨by norm_num,
    (positionComponent_velocity_integration.1
      ⟨"B", 0, 0, 2, 0, some (1 / 2), none, 1 / 2, 1 / 2, (1, 0)⟩
      (1 / 2) (by norm_num) (by norm_num [abs_of_pos])
      (by norm_num [abs_of_pos])).1⟩

/-- **C3 (code bug)** — when entity "A" (z-level 2, depth 2) moves onto
entity "B" (z-level 2, depth 2), the two boxes overlap on the three common
z-levels 0, 1 and 2, and `CollisionListener.on_event` emits **three**
identical `ecs_collision` events `("A","B")` — one per overlapping z-level —
because the z-level loop ends in a dead `continue` where a `break` was clearly
intended.  With depth 0 (a single common z-level) exactly one event is
emitted, which is the behaviour the spec mandates for all depths. -/
theorem collisionListener_duplicate_per_z_level :
    collisionMoveEvents (clPair 2) ["A", "B"] "A" 1 1
        = [("A", "B"), ("A", "B"), ("A", "B")]
    ∧ collisionMoveEvents (clPair 0) ["A", "B"] "A" 1 1 = [("A", "B")] := by
  constructor <;> rfl

/-- **C4** — processing an `ecs_move` whose target box would extend outside
the layout grid produces exactly one border-collision event
`(entity_id, None)` and returns the `ECSLayoutState` unchanged: the stored
child location, the per-cell coverage stacks and the `need_redraw` flag are
all exactly as before, and no `move_child` happens. -/
theorem ecsLayout_move_border (st : ECSLayoutState) (entity_id : String)
    (wid : Nat) (x y : ℤ)
    (hreg : st.entities.lookup entity_id = some wid)
    (hoob : x < 0
      ∨ x + (((widgetData st.layout wid).chars.getD 0 []).length : ℤ)
          > ((st.layout.chars.getD 0 []).length : ℤ)
      ∨ y < 0
      ∨ y + ((widgetData st.layout wid).chars.length : ℤ)
          > (st.layout.chars.length : ℤ)) :
    ecsMoveEvent st entity_id x y = .ok (st, [(entity_id, none)]) := by
  simp only [ecsMoveEvent, hreg]
  rw [if_pos hoob]

/-- Witness for `ecsLayout_move_border`: moving the 1×1 entity of a 1×1 layout
to `(1, 0)` (sticking out on the right) yields the single border notification
and the unchanged state. -/
theorem ecsLayout_move_border_witness :
    ecsMoveEvent ecsBorderWitnessState "E" 1 0
      = .ok (ecsBorderWitnessState, [("E", none)]) :=
  ecsLayout_move_border ecsBorderWitnessState "E" 0 1 0 rfl (by decide)

theorem getLast?_cons_ne_none (a : α) (l : List α) : (a :: l).getLast? ≠ none := by
  simp [List.getLast?_eq_none_iff]

theorem rebuildCell_fold_opaque (stack : List (ℤ × Char × String)) :
    ∀ (hz : ℤ) (c : Char) (col : Option String), c ≠ ' ' →
      (∀ e ∈ stack, hz ≤ e.1) →
      stack.Pairwise (fun a b => a.1 ≤ b.1) →
      stack.foldl rebuildCellStep (hz, c, col)
        = match (stack.filter fun e => e.2.1 != ' ').getLast? with
          | some f => (f.1, f.2.1, some f.2.2)
          | none => (hz, c, col) := by
  induction stack with
  | nil => intro hz c col _ _ _; rfl
  | cons e rest ih =>
      intro hz c col hc hlb hpw
      have he : hz ≤ e.1 := hlb e (by simp)
      have hrestlb : ∀ x ∈ rest, e.1 ≤ x.1 :=
        fun x hx => (List.pairwise_cons.mp hpw).1 x hx
      have hpw₂ := (List.pairwise_cons.mp hpw).2
      simp only [List.foldl_cons]
      by_cases hsp : e.2.1 = ' '
      · have hstep : rebuildCellStep (hz, c, col) e = (hz, c, col) := by
          simp [rebuildCellStep, he, hc, hsp]
        rw [hstep, ih hz c col hc (fun x hx => le_trans he (hrestlb x hx)) hpw₂,
          List.filter_cons_of_neg (by simp [hsp])]
      · have hstep : rebuildCellStep (hz, c, col) e = (e.1, e.2.1, some e.2.2) := by
          simp [rebuildCellStep, he, hsp]
        rw [hstep, ih e.1 e.2.1 (some e.2.2) hsp hrestlb hpw₂,
          List.filter_cons_of_pos (by simp [hsp])]
        cases hf : (rest.filter fun x => x.2.1 != ' ') with
        | nil => rfl
        | cons f fs =>
            rw [List.getLast?_cons_cons]
            cases hg : (f :: fs).getLast? with
            | some g => rfl
            | none => exact absurd hg (getLast?_cons_ne_none f fs)

theorem rebuildCell_fold_space (stack : List (ℤ × Char × String)) :
    ∀ (hz : ℤ) (col : Option String),
      (∀ e ∈ stack, hz ≤ e.1) →
      stack.Pairwise (fun a b => a.1 ≤ b.1) →
      stack.foldl rebuildCellStep (hz, ' ', col)
        = match (stack.filter fun e => e.2.1 != ' ').getLast? with
          | some f => (f.1, f.2.1, some f.2.2)
          | none =>
              match stack.getLast? with
              | some l => (l.1, ' ', some l.2.2)
              | none => (hz, ' ', col) := by
  induction stack with
  | nil => intro hz col _ _; rfl
  | cons e rest ih =>
      intro hz col hlb hpw
      have he : hz ≤ e.1 := hlb e (by simp)
      have hrestlb : ∀ x ∈ rest, e.1 ≤ x.1 :=
        fun x hx => (List.pairwise_cons.mp hpw).1 x hx
      have hpw₂ := (List.pairwise_cons.mp hpw).2
      simp only [List.foldl_cons]
      by_cases hsp : e.2.1 = ' '
      · have hstep : rebuildCellStep (hz, ' ', col) e = (e.1, ' ', some e.2.2) := by
          simp [rebuildCellStep, he, hsp]
        rw [hstep, ih e.1 (some e.2.2) hrestlb hpw₂,
          List.filter_cons_of_neg (by simp [hsp])]
        cases hf : (rest.filter fun x => x.2.1 != ' ').getLast? with
        | some f => simp only [hf]
        | none =>
            simp only [hf]
            cases rest with
            | nil => rfl
            | cons r rs =>
                rw [List.getLast?_cons_cons]
                cases hg : (r :: rs).getLast? with
                | some g => rfl
                | none => exact absurd hg (getLast?_cons_ne_none r rs)
      · have hstep : rebuildCellStep (hz, ' ', col) e = (e.1, e.2.1, some e.2.2) := by
          simp [rebuildCellStep, he, hsp]
        rw [hstep, rebuildCell_fold_opaque rest e.1 e.2.1 (some e.2.2) hsp hrestlb hpw₂,
          List.filter_cons_of_pos (by simp [hsp])]
        cases hf : (rest.filter fun x => x.2.1 != ' ') with
        | nil => rfl
        | cons f fs =>
            rw [List.getLast?_cons_cons]
            cases hg : (f :: fs).getLast? with
            | some g => rfl
            | none => exact absurd hg (getLast?_cons_ne_none f fs)

/-- **C5 amended** — per-cell recompositing.  General part: whenever a cell's
coverage stack lists its children in nondecreasing z order with all z-levels
nonnegative (in particular when all children share z-level 0, the Layout
default), the rebuilt cell carries the char/colour of the highest-z covering
child whose char is non-space (ties to the most recently added, i.e. the last
such entry), and when all covering children are space there, a space char with
the colour of the *most recently added* covering child (the background's
colour only when the background is the sole cover).  Scenario part
(Scenario A): a 10×10 layout with background `'.'` and a 2×2 `'#'` child at
`(3,3)` rebuilds to `'#'` at cell `(3,3)` and `'.'` at `(0,0)`. -/
theorem layout_recomposite :
    (∀ stack : List (ℤ × Char × String),
       stack.Pairwise (fun a b => a.1 ≤ b.1) →
       (∀ e ∈ stack, 0 ≤ e.1) →
       rebuildCell stack
         = match (stack.filter fun e => e.2.1 != ' ').getLast? with
           | some e => (e.2.1, some e.2.2)
           | none => (' ', stack.getLast?.map fun e => e.2.2))
    ∧ (scenarioALayout.map fun st =>
         (gridGet (rebuildSelf st).chars 3 3 'X', gridGet (rebuildSelf st).chars 0 0 'X'))
        = .ok ('#', '.') := by
  constructor
  · intro stack hpw hlb
    unfold rebuildCell
    rw [rebuildCell_fold_space stack 0 none hlb hpw]
    cases hf : (stack.filter fun e => e.2.1 != ' ').getLast? with
    | some f => simp only [hf]
    | none =>
        simp only [hf]
        cases hl : stack.getLast? with
        | some l => rfl
        | none => rfl
  · rfl

/-- Witness for `layout_recomposite`: the general cell rule applied to the
concrete sorted stack of a background `'.'` under a `'#'` child, both at
z-level 0. -/
theorem layout_recomposite_witness :
    rebuildCell [(0, '.', "white"), (0, '#', "red")] = ('#', some "red") :=
  (layout_recomposite.1 [(0, '.', "white"), (0, '#', "red")]
      (by simp) (by simp)).trans rfl

/-- **C5 counterexample** — the claim's cell rule fails on mixed z-levels: in
a 1×1 layout whose background is a space, covered by a transparent (space)
child at z-level 5 and then an opaque child `'x'` at z-level 2, the only — and
hence highest-z — covering child with a non-space char shows `'x'`, yet the
rebuilt cell is `' '`: the scan's z threshold is raised to 5 by the
transparent child, hiding the opaque z-2 child. -/
theorem layout_recomposite_counterexample :
    (counterLayout.map fun st => gridGet (rebuildSelf st).chars 0 0 'X') = .ok ' '
    ∧ (counterLayout.map fun st =>
        ((cellStack st 0 0).filter fun e => e.2.1 != ' ').map fun e => e.2.1)
      = .ok ['x'] :=
  ⟨rfl, rfl⟩

theorem splitComma_ne_nil (s : PyStr) : splitComma s ≠ [] := by
  induction s with
  | nil => simp [splitComma]
  | cons c rest ih =>
      simp only [splitComma]
      by_cases hc : c = ','
      · simp [hc]
      · rw [if_neg hc]
        cases hs : splitComma rest with
        | nil => simp
        | cons r rs => simp

theorem splitComma_append (x s : PyStr) (hx : ',' ∉ x) :
    splitComma (x ++ s)
      = (x ++ (splitComma s).headD []) :: (splitComma s).tail := by
  induction x with
  | nil =>
      simp only [List.nil_append]
      cases hs : splitComma s with
      | nil => exact absurd hs (splitComma_ne_nil s)
      | cons r rs => simp
  | cons c x ih =>
      have hc : c ≠ ',' := fun h => hx (by simp [h])
      have hx₂ : ',' ∉ x := fun h => hx (by simp [h])
      simp only [List.cons_append, splitComma, if_neg hc, List.append_eq]
      rw [ih hx₂]

theorem splitComma_joinComma (rows : List PyStr) (hne : rows ≠ [])
    (hfree : ∀ r ∈ rows, ',' ∉ r) :
    splitComma (joinComma rows) = rows := by
  induction rows with
  | nil => exact absurd rfl hne
  | cons x xs ih =>
      cases xs with
      | nil =>
          have h₂ := splitComma_append x [] (hfree x (by simp))
          simp only [List.append_nil] at h₂
          show splitComma x = [x]
          rw [h₂]
          simp [splitComma]
      | cons y ys =>
          have hx : ',' ∉ x := hfree x (by simp)
          show splitComma (x ++ ',' :: joinComma (y :: ys)) = x :: y :: ys
          rw [splitComma_append x _ hx]
          have hsplit : splitComma (',' :: joinComma (y :: ys))
              = [] :: splitComma (joinComma (y :: ys)) := by
            simp [splitComma]
          rw [hsplit, ih (by simp) (fun r hr => hfree r (by simp [hr]))]
          simp

/-- **C8 amended** — serialization round trip.  First conjunct: for every base
Widget whose colour strings are nonempty and comma-free, deserializing the
repr dump reproduces the chars and colors exactly, while `z_level` (omitted by
`Widget.__repr__`) resets to the constructor default 0 — so fields beyond
chars/colors survive only when the class's repr dumps them.  The remaining
conjuncts: every container type (`Layout`, `ScrollableLayout`,
`InputScrollable`, `ECSLayout`, `ScrollableECSLayout`) raises on `repr`
instead of producing output. -/
theorem widget_serialization_round_trip :
    (∀ w : PyWidget Char PyStr,
       shapes_equal w.chars w.colors = true →
       (∀ row ∈ w.colors, row ≠ [] ∧ ∀ s ∈ row, ',' ∉ s) →
       deserializeWidget (widgetRepr w) = .ok ⟨0, w.chars, w.colors⟩)
    ∧ (∀ l : LayoutState, ∃ m, layoutRepr l = .error m)
    ∧ (∀ l : ScrollableLayoutState, ∃ m, scrollableLayoutRepr l = .error m)
    ∧ (∀ l : InputScrollableState, ∃ m, inputScrollableRepr l = .error m)
    ∧ (∀ l : ECSLayoutState, ∃ m, ecsLayoutRepr l = .error m)
    ∧ (∀ l : ScrollableECSLayoutState, ∃ m, scrollableECSLayoutRepr l = .error m) := by
  refine ⟨?_, fun l => ⟨_, rfl⟩, fun l => ⟨_, rfl⟩, fun l => ⟨_, rfl⟩,
    fun l => ⟨_, rfl⟩, fun l => ⟨_, rfl⟩⟩
  intro w hsh hrows
  unfold deserializeWidget widgetRepr
  rw [if_pos rfl, List.map_map]
  have hcols : w.colors.map (splitComma ∘ joinComma) = w.colors := by
    rw [show w.colors = w.colors.map id by simp]
    rw [List.map_map]
    refine List.map_congr_left fun row hr => ?_
    simp only [Function.comp_apply, id]
    exact splitComma_joinComma row ((hrows row (by simpa using hr)).1)
      ((hrows row (by simpa using hr)).2)
  rw [hcols]
  unfold mkWidget
  rw [if_pos hsh]

/-- Witness for `widget_serialization_round_trip`: a 1×2 widget with colours
`"r"`/`"g"` round-trips to itself with `z_level` reset from 7 to 0. -/
theorem widget_serialization_round_trip_witness :
    deserializeWidget (widgetRepr ⟨7, [['a', 'b']], [[['r'], ['g']]]⟩)
      = .ok (⟨0, [['a', 'b']], [[['r'], ['g']]]⟩ : PyWidget Char PyStr) :=
  widget_serialization_round_trip.1 ⟨7, [['a', 'b']], [[['r'], ['g']]]⟩
    (by decide) (by decide)

/-- **C8 counterexample** — the claim's "equal field values" fails:
deserializing the repr of a Widget with `z_level = 5` yields a widget with
`z_level = 0`, because `Widget.__repr__` never dumps the z-level; the decoded
object is *not* equal to the original. -/
theorem widget_serialization_counterexample :
    deserializeWidget (widgetRepr ⟨5, [['#']], [[['w']]]⟩)
        = .ok (⟨0, [['#']], [[['w']]]⟩ : PyWidget Char PyStr)
    ∧ deserializeWidget (widgetRepr ⟨5, [['#']], [[['w']]]⟩)
        ≠ .ok (⟨5, [['#']], [[['w']]]⟩ : PyWidget Char PyStr) := by
  constructor
  · rfl
  · intro h
    have h₀ : (Except.ok (⟨0, [['#']], [[['w']]]⟩ : PyWidget Char PyStr)
          : Except String (PyWidget Char PyStr))
        = .ok ⟨5, [['#']], [[['w']]]⟩ := h
    injection h₀ with h₁
    simp [PyWidget.mk.injEq] at h₁

/-- **C2** — deferred destruction of an entity.  After `destroy()` both
sibling components (`position`, `widget`) are unsubscribed from every event
type while the destructor stays subscribed and all three slots remain on the
entity; after draining the queued `ecs_destroy` plus a `tick` event, the
tracker has forgotten "E" but the slots are still attached (teardown has not
happened before the end-of-tick signal); after the `'tick_over'` service event
is drained, every slot — the destructor included — is gone and the destructor
is unsubscribed. -/
theorem destructor_deferred_teardown :
    (ecsAfterDestroy.map fun w =>
      (subscribedAnywhere w "E:position", subscribedAnywhere w "E:widget",
       subscribedAnywhere w "E:destructor", w.components))
      = .ok (false, false, true, ["position", "widget", "destructor"])
    ∧ (ecsMidTick.map fun w => (w.tracker, w.components))
      = .ok ([], ["position", "widget", "destructor"])
    ∧ (ecsFinal.map fun w =>
        (w.tracker, w.components, subscribedAnywhere w "E:destructor"))
      = .ok ([], [], false) :=
  ⟨rfl, rfl, rfl⟩

end BearHug
